import Mathlib

/-!
Verification of the Jarvis shopping-assistant client logic.

This file shallowly embeds the pure state-manipulation layer of the
repository — the cart reducer (`cartUtils`), the product fetch/parse/cache
utilities (`productUtils`), the navigation helpers (`navigationUtils`) and
the category-filter action of the `useProducts` hook — and proves the
behavioural properties stated in the specification.

Modelling conventions:
* JavaScript numbers that hold prices or rating averages are modelled as `Rat`;
  ids, quantities and indices as `Int` (indices from the navigation helpers
  are compared and incremented as plain numbers in the source).
* A function that `throw`s is modelled as returning `Except String α`;
  the string is the thrown error message.
* Raw JSON records (the `any` values validated by `validateProduct`) are
  modelled as records of `Option`-typed fields: a field is `none` exactly
  when the corresponding `typeof` check in the source fails.
* Browser I/O (HTTP, `localStorage`, `Date.now()`) is modelled by passing
  the externally produced value explicitly: the parsed response array, the
  persisted cart read back from storage, and the current time are arguments.
-/

/-- The four catalog categories of `ProductCategory` in `lib/types.ts`. -/
inductive ProductCategory : Type
  | electronics
  | jewelery
  | mensClothing
  | womensClothing
deriving DecidableEq

/-- `Product.rating` from `lib/types.ts`: average score and review count. -/
structure Rating : Type where
  rate : Rat
  count : Int
deriving DecidableEq

/-- `Product` from `lib/types.ts`. Identity is the integer `id`. -/
structure Product : Type where
  id : Int
  title : String
  price : Rat
  description : String
  category : ProductCategory
  image : String
  rating : Rating
deriving DecidableEq

/-- `CartItem` from `lib/types.ts`: a product reference plus a quantity. -/
structure CartItem : Type where
  product : Product
  quantity : Int
deriving DecidableEq

/-- `CartState` from `lib/types.ts`: items plus the stored subtotal field. -/
structure CartState : Type where
  items : List CartItem
  subtotal : Rat
deriving DecidableEq

/-- `PersistedCart.items` entries: `{productId, quantity}` pairs. -/
structure PersistedCartItem : Type where
  productId : Int
  quantity : Int
deriving DecidableEq

/-- `PersistedCart` from `lib/types.ts`: the localStorage representation. -/
structure PersistedCart : Type where
  items : List PersistedCartItem
  lastUpdated : String
deriving DecidableEq

/-- `calculateSubtotal` from `cartUtils`: `reduce` over the items summing
`price * quantity`, starting from 0. -/
def calculateSubtotal (items : List CartItem) : Rat :=
  items.foldl (fun sum item => sum + item.product.price * (item.quantity : Rat)) 0

/-- `addToCart` from `cartUtils`: validates `quantity > 0` (else throws),
merges into the line found by `findIndex` on product id, otherwise appends
a new line, and recomputes the subtotal. -/
def addToCart (cart : CartState) (product : Product) (quantity : Int) :
    Except String CartState :=
  if quantity ≤ 0 then
    .error "Quantity must be greater than 0"
  else
    let updatedItems : List CartItem :=
      match cart.items.findIdx? (fun item => item.product.id == product.id) with
      | some existingItemIndex =>
        cart.items.enum.map (fun p =>
          if p.1 == existingItemIndex then
            { p.2 with quantity := p.2.quantity + quantity }
          else
            p.2)
      | none =>
        cart.items ++ [{ product := product, quantity := quantity }]
    .ok { items := updatedItems, subtotal := calculateSubtotal updatedItems }

/-- `removeFromCart` from `cartUtils`: filters out lines whose product id
matches, recomputes the subtotal. -/
def removeFromCart (cart : CartState) (productId : Int) : CartState :=
  let updatedItems := cart.items.filter (fun item => !(item.product.id == productId))
  { items := updatedItems, subtotal := calculateSubtotal updatedItems }

/-- `clearCart` from `cartUtils`: the empty cart. -/
def clearCart : CartState :=
  { items := [], subtotal := 0 }

/-- `updateCartItemQuantity` from `cartUtils`: validates `quantity > 0`
(else throws), rewrites the quantity of every line whose product id matches,
recomputes the subtotal. -/
def updateCartItemQuantity (cart : CartState) (productId : Int) (quantity : Int) :
    Except String CartState :=
  if quantity ≤ 0 then
    .error "Quantity must be greater than 0"
  else
    let updatedItems := cart.items.map (fun item =>
      if item.product.id == productId then { item with quantity := quantity } else item)
    .ok { items := updatedItems, subtotal := calculateSubtotal updatedItems }

/-- `saveCart` from `cartUtils`: the value written to localStorage —
`{productId, quantity}` pairs plus a timestamp (`new Date().toISOString()`
is passed in as `nowIso`). The storage write itself (and its swallowed
quota errors) is outside the embedding. -/
def saveCart (cart : CartState) (nowIso : String) : PersistedCart :=
  { items := cart.items.map (fun item =>
      { productId := item.product.id, quantity := item.quantity }),
    lastUpdated := nowIso }

/-- `loadCart` from `cartUtils`. `savedData = none` models both an absent
key and a JSON parse failure (both paths return `clearCart()`); otherwise
each saved entry is matched by `find` against the supplied product list,
entries whose id is absent are dropped, and the subtotal is recomputed. -/
def loadCart (savedData : Option PersistedCart) (products : List Product) : CartState :=
  match savedData with
  | none => clearCart
  | some persistedCart =>
    let items : List CartItem := persistedCart.items.filterMap (fun savedItem =>
      (products.find? (fun p => p.id == savedItem.productId)).map (fun product =>
        { product := product, quantity := savedItem.quantity }))
    { items := items, subtotal := calculateSubtotal items }

/-- `getCartItemCount` from `cartUtils`. -/
def getCartItemCount (cart : CartState) : Int :=
  cart.items.foldl (fun count item => count + item.quantity) 0

/-- `BoundaryBehavior` from `navigationUtils`. -/
inductive BoundaryBehavior : Type
  | wrap
  | clamp
deriving DecidableEq

/-- `navigateNext` from `navigationUtils`. -/
def navigateNext (currentIndex : Int) (totalProducts : Int)
    (behavior : BoundaryBehavior) : Int :=
  if totalProducts ≤ 0 then 0
  else if currentIndex < 0 then 0
  else if currentIndex ≥ totalProducts then totalProducts - 1
  else if currentIndex = totalProducts - 1 then
    (if behavior = .wrap then 0 else currentIndex)
  else currentIndex + 1

/-- `navigatePrevious` from `navigationUtils`. -/
def navigatePrevious (currentIndex : Int) (totalProducts : Int)
    (behavior : BoundaryBehavior) : Int :=
  if totalProducts ≤ 0 then 0
  else if currentIndex < 0 then 0
  else if currentIndex ≥ totalProducts then totalProducts - 1
  else if currentIndex = 0 then
    (if behavior = .wrap then totalProducts - 1 else currentIndex)
  else currentIndex - 1

/-- `navigateToIndex` from `navigationUtils`: clamp `targetIndex` into
`[0, totalProducts - 1]`, or 0 for an empty list. -/
def navigateToIndex (targetIndex : Int) (totalProducts : Int) : Int :=
  if totalProducts ≤ 0 then 0
  else if targetIndex < 0 then 0
  else if targetIndex ≥ totalProducts then totalProducts - 1
  else targetIndex

/-- The raw `rating` sub-object of a Fake Store API record, as inspected by
`validateProduct` in `productUtils`: a field is `none` exactly when the
corresponding `typeof` check fails. -/
structure RawRating : Type where
  rate : Option Rat
  count : Option Int
deriving DecidableEq

/-- A raw Fake Store API record (the `any` value handed to `parseProduct`).
Each field is `none` exactly when `validateProduct`'s `typeof` check for
that field fails (missing field or wrong runtime type). -/
structure RawProduct : Type where
  id : Option Int
  title : Option String
  price : Option Rat
  description : Option String
  category : Option String
  image : Option String
  rating : Option RawRating
deriving DecidableEq

/-- `isValidCategory` from `productUtils`, fused with the narrowing the
source performs by type guard: maps the four recognised category strings to
the enum and anything else to `none`. -/
def parseCategory (category : String) : Option ProductCategory :=
  if category = "electronics" then some .electronics
  else if category = "jewelery" then some .jewelery
  else if category = "men\x27s clothing" then some .mensClothing
  else if category = "women\x27s clothing" then some .womensClothing
  else none

/-- `parseProduct` from `productUtils`: throws on a record failing the
`validateProduct` shape check (some field `none`), throws on an
unrecognised category string, otherwise returns the normalized product. -/
def parseProduct (rawProduct : RawProduct) : Except String Product :=
  match rawProduct.id, rawProduct.title, rawProduct.price, rawProduct.description,
      rawProduct.category, rawProduct.image, rawProduct.rating with
  | some id, some title, some price, some description, some category, some image,
      some rawRating =>
    match rawRating.rate, rawRating.count with
    | some rate, some count =>
      match parseCategory category with
      | some cat =>
        .ok { id := id, title := title, price := price, description := description,
              category := cat, image := image, rating := { rate := rate, count := count } }
      | none => .error ("Invalid product category: " ++ category)
    | _, _ => .error "Invalid product data: missing or invalid required fields"
  | _, _, _, _, _, _, _ =>
    .error "Invalid product data: missing or invalid required fields"

/-- The records of `data` that `parseProduct` accepts, in order. -/
def validProducts (data : List RawProduct) : List Product :=
  data.filterMap (fun rawProduct => (parseProduct rawProduct).toOption)

/-- `fetchProducts` from `productUtils`, below the transport layer: `data`
is the JSON array already received (HTTP errors and the `Array.isArray`
check are outside the embedding). The source loops over the array, keeps
every record `parseProduct` accepts, collects an indexed message for every
record it rejects, returns the kept records if there is at least one, and
otherwise throws. -/
def fetchProducts (data : List RawProduct) : Except String (List Product) :=
  let parsed := data.enum.foldl
    (fun (acc : List Product × List String) p =>
      match parseProduct p.2 with
      | .ok product => (acc.1 ++ [product], acc.2)
      | .error e => (acc.1, acc.2 ++ ["Product at index " ++ toString p.1 ++ ": " ++ e]))
    ([], [])
  if parsed.1.length > 0 then
    .ok parsed.1
  else
    .error ("Failed to parse any products. Errors: " ++ String.intercalate "; " parsed.2)

/-- `fetchProductsByCategory` from `productUtils`, below the transport
layer: the source returns `data.map(parseProduct)`, so the first record
`parseProduct` rejects aborts the whole call with that error. -/
def fetchProductsByCategory : List RawProduct → Except String (List Product)
  | [] => .ok []
  | rawProduct :: rest =>
    match parseProduct rawProduct with
    | .error e => .error e
    | .ok product =>
      match fetchProductsByCategory rest with
      | .error e => .error e
      | .ok products => .ok (product :: products)

/-- The module-level cache variables of `productUtils`:
`productCache` and `cacheTimestamp` (both initially `null`). -/
structure ProductCacheState : Type where
  productCache : Option (List Product)
  cacheTimestamp : Option Int
deriving DecidableEq

/-- The initial module state: both cache variables are `null`. -/
def initialCacheState : ProductCacheState :=
  { productCache := none, cacheTimestamp := none }

/-- `CACHE_DURATION` from `productUtils`: 5 minutes in milliseconds. -/
def CACHE_DURATION : Int := 5 * 60 * 1000

/-- `fetchProductsWithCache` from `productUtils`. `now` models
`Date.now()` and `networkProducts` the (successful) result of the inner
`fetchProducts()` network call. Returns the produced list, the updated
module state, and whether a network fetch was issued. -/
def fetchProductsWithCache (forceRefresh : Bool) (now : Int)
    (state : ProductCacheState) (networkProducts : List Product) :
    List Product × ProductCacheState × Bool :=
  match state.productCache, state.cacheTimestamp with
  | some cache, some cacheTimestamp =>
    if forceRefresh = false ∧ now - cacheTimestamp < CACHE_DURATION then
      (cache, state, false)
    else
      (networkProducts,
       { productCache := some networkProducts, cacheTimestamp := some now }, true)
  | _, _ =>
    (networkProducts,
     { productCache := some networkProducts, cacheTimestamp := some now }, true)

/-- The category-filter value `ProductCategory | 'all'` used by the
`useProducts` hook. -/
inductive CategoryFilter : Type
  | all
  | cat (c : ProductCategory)
deriving DecidableEq

/-- The slice of the `useProducts` hook state that `setCategory` reads and
writes: the full product list, the derived filtered list, the browsing
index and the active filter. -/
structure UseProductsState : Type where
  products : List Product
  filteredProducts : List Product
  currentProductIndex : Int
  activeCategory : CategoryFilter
deriving DecidableEq

/-- `setCategory` from the `useProducts` hook: stores the filter, derives
the filtered list (full list for `'all'`, else the products of that
category), and resets the browsing index to 0. -/
def setCategory (state : UseProductsState) (category : CategoryFilter) :
    UseProductsState :=
  let filtered := match category with
    | .all => state.products
    | .cat c => state.products.filter (fun product => product.category == c)
  { state with
    activeCategory := category,
    filteredProducts := filtered,
    currentProductIndex := 0 }

/-- `setCurrentIndex` from the `useProducts` hook: 0 for an empty filtered
list, else `Math.max(0, Math.min(index, length - 1))`. -/
def setCurrentIndex (filteredProductsLength : Int) (index : Int) : Int :=
  if filteredProductsLength = 0 then 0
  else max 0 (min index (filteredProductsLength - 1))

/-- A concrete electronics product used in witnesses and counterexamples. -/
def sampleProduct : Product :=
  { id := 1, title := "Sample", price := 10, description := "d",
    category := .electronics, image := "img", rating := { rate := 4, count := 100 } }

/-- A second concrete product (different id and category). -/
def sampleProduct2 : Product :=
  { id := 2, title := "Ring", price := 20, description := "d2",
    category := .jewelery, image := "img2", rating := { rate := 5, count := 10 } }

/-- A product sharing `sampleProduct`'s id but with a different price. -/
def sampleProductRepriced : Product :=
  { id := 1, title := "Sample", price := 20, description := "d",
    category := .electronics, image := "img", rating := { rate := 4, count := 100 } }

/-- A raw record that `parseProduct` accepts, normalizing to `sampleProduct`. -/
def rawGood : RawProduct :=
  { id := some 1, title := some "Sample", price := some 10, description := some "d",
    category := some "electronics", image := some "img",
    rating := some { rate := some 4, count := some 100 } }

/-- A raw record that `parseProduct` rejects (missing price field). -/
def rawBad : RawProduct :=
  { id := some 3, title := some "Broken", price := none, description := some "d",
    category := some "electronics", image := some "img",
    rating := some { rate := some 4, count := some 100 } }

/-- A well-formed one-line cart holding `sampleProduct` with quantity 1. -/
def cartWithSample : CartState :=
  { items := [{ product := sampleProduct, quantity := 1 }], subtotal := 10 }

instance {ε α : Type} [DecidableEq ε] [DecidableEq α] : DecidableEq (Except ε α) :=
  fun a b =>
    match a, b with
    | .error e, .error f =>
      if h : e = f then .isTrue (by rw [h]) else .isFalse (by intro c; cases c; exact h rfl)
    | .error _, .ok _ => .isFalse (by intro c; cases c)
    | .ok _, .error _ => .isFalse (by intro c; cases c)
    | .ok x, .ok y =>
      if h : x = y then .isTrue (by rw [h]) else .isFalse (by intro c; cases c; exact h rfl)

/-- C2: after every cart operation — `addToCart`, `removeFromCart`,
`updateCartItemQuantity`, `clearCart` and `loadCart` — the `subtotal` field
of the returned cart equals the sum over its items of `price * quantity`;
it is recomputed from the items list, never carried over. -/
theorem cart_subtotal_invariant :
    (∀ (cart : CartState) (product : Product) (quantity : Int) (c : CartState),
       addToCart cart product quantity = .ok c → c.subtotal = calculateSubtotal c.items) ∧
    (∀ (cart : CartState) (productId : Int),
       (removeFromCart cart productId).subtotal
         = calculateSubtotal (removeFromCart cart productId).items) ∧
    (∀ (cart : CartState) (productId quantity : Int) (c : CartState),
       updateCartItemQuantity cart productId quantity = .ok c →
         c.subtotal = calculateSubtotal c.items) ∧
    (clearCart.subtotal = calculateSubtotal clearCart.items) ∧
    (∀ (savedData : Option PersistedCart) (products : List Product),
       (loadCart savedData products).subtotal
         = calculateSubtotal (loadCart savedData products).items) := by
  refine ⟨?_, ?_, ?_, rfl, ?_⟩
  · intro cart product quantity c h
    unfold addToCart at h
    split at h
    · exact absurd h (by simp)
    · cases h
      rfl
  · intro cart productId
    rfl
  · intro cart productId quantity c h
    unfold updateCartItemQuantity at h
    split at h
    · exact absurd h (by simp)
    · cases h
      rfl
  · intro savedData products
    cases savedData with
    | none => rfl
    | some persistedCart => rfl

/-- Witness for C2 at concrete inputs, discharging the `.ok` hypotheses. -/
theorem cart_subtotal_invariant_witness :
    (∃ c : CartState, addToCart clearCart sampleProduct 2 = .ok c ∧
       c.subtotal = calculateSubtotal c.items) ∧
    (∃ c : CartState, updateCartItemQuantity clearCart 1 2 = .ok c ∧
       c.subtotal = calculateSubtotal c.items) := by
  have h1 : addToCart clearCart sampleProduct 2
      = .ok { items := [{ product := sampleProduct, quantity := 2 }], subtotal := 20 } := by
    simp [addToCart, clearCart, calculateSubtotal, sampleProduct]
    norm_num
  have h2 : updateCartItemQuantity clearCart 1 2 = .ok { items := [], subtotal := 0 } := by
    simp [updateCartItemQuantity, clearCart, calculateSubtotal]
  constructor
  · exact ⟨{ items := [{ product := sampleProduct, quantity := 2 }], subtotal := 20 },
      h1, cart_subtotal_invariant.1 clearCart sampleProduct 2 _ h1⟩
  · exact ⟨{ items := [], subtotal := 0 },
      h2, cart_subtotal_invariant.2.2.1 clearCart 1 2 _ h2⟩

/-- C7: `addToCart` and `updateCartItemQuantity` throw
"Quantity must be greater than 0" whenever the quantity is not positive;
being pure functions of the cart value, they return no modified cart in
that case, so the caller's cart is untouched. -/
theorem nonpositive_quantity_rejected (cart : CartState) (product : Product)
    (productId quantity : Int) (h : quantity ≤ 0) :
    addToCart cart product quantity = .error "Quantity must be greater than 0" ∧
    updateCartItemQuantity cart productId quantity
      = .error "Quantity must be greater than 0" := by
  constructor
  · unfold addToCart
    exact if_pos h
  · unfold updateCartItemQuantity
    exact if_pos h

/-- Witness for C7 at quantity 0. -/
theorem nonpositive_quantity_rejected_witness :
    addToCart clearCart sampleProduct 0 = .error "Quantity must be greater than 0" ∧
    updateCartItemQuantity clearCart 1 0 = .error "Quantity must be greater than 0" :=
  nonpositive_quantity_rejected clearCart sampleProduct 1 0 (by decide)

/-- C6: with wrap behavior, for a non-empty list and an in-range index,
`navigateNext` wraps from the last index to 0 and otherwise advances by
one; `navigatePrevious` wraps from 0 to the last index and otherwise steps
back by one; for an empty list both return 0 whatever the index. -/
theorem navigate_wrap_spec (i n : Int) :
    (0 < n → 0 ≤ i → i ≤ n - 1 →
      (navigateNext i n .wrap = if i = n - 1 then 0 else i + 1) ∧
      (navigatePrevious i n .wrap = if i = 0 then n - 1 else i - 1)) ∧
    (n ≤ 0 → navigateNext i n .wrap = 0 ∧ navigatePrevious i n .wrap = 0) := by
  constructor
  · intro hn hi hin
    constructor
    · unfold navigateNext
      rw [if_neg (by omega), if_neg (by omega), if_neg (by omega)]
      by_cases hlast : i = n - 1
      · rw [if_pos hlast, if_pos hlast, if_pos rfl]
      · rw [if_neg hlast, if_neg hlast]
    · unfold navigatePrevious
      rw [if_neg (by omega), if_neg (by omega), if_neg (by omega)]
      by_cases hfirst : i = 0
      · rw [if_pos hfirst, if_pos hfirst, if_pos rfl]
      · rw [if_neg hfirst, if_neg hfirst]
  · intro hn
    unfold navigateNext navigatePrevious
    rw [if_pos hn, if_pos hn]
    exact ⟨rfl, rfl⟩

/-- Witness for C6: wrap at both boundaries of a 3-product list, and the
empty-list case. -/
theorem navigate_wrap_spec_witness :
    (navigateNext 2 3 .wrap = if (2 : Int) = 3 - 1 then 0 else 2 + 1) ∧
    (navigatePrevious 0 3 .wrap = if (0 : Int) = 0 then 3 - 1 else 0 - 1) ∧
    (navigateNext 5 0 .wrap = 0 ∧ navigatePrevious 5 0 .wrap = 0) :=
  ⟨((navigate_wrap_spec 2 3).1 (by decide) (by decide) (by decide)).1,
   ((navigate_wrap_spec 0 3).1 (by decide) (by decide) (by decide)).2,
   (navigate_wrap_spec 5 0).2 (by decide)⟩

/-- C9: `navigateToIndex` returns the target index when it is in range,
clamps negative targets to 0 and too-large targets to `n - 1`, and returns
0 for an empty list. -/
theorem navigateToIndex_clamps (t n : Int) :
    (0 < n →
      ((0 ≤ t → t ≤ n - 1 → navigateToIndex t n = t) ∧
       (t < 0 → navigateToIndex t n = 0) ∧
       (n ≤ t → navigateToIndex t n = n - 1))) ∧
    (n ≤ 0 → navigateToIndex t n = 0) := by
  unfold navigateToIndex
  constructor
  · intro hn
    refine ⟨?_, ?_, ?_⟩ <;> intros <;> split_ifs <;> omega
  · intro hn
    rw [if_pos hn]

/-- Witness for C9: in-range, below-range, above-range, and empty-list
inputs. -/
theorem navigateToIndex_clamps_witness :
    navigateToIndex 1 3 = 1 ∧ navigateToIndex (-2) 3 = 0 ∧
    navigateToIndex 7 3 = 3 - 1 ∧ navigateToIndex 7 0 = 0 :=
  ⟨((navigateToIndex_clamps 1 3).1 (by decide)).1 (by decide) (by decide),
   ((navigateToIndex_clamps (-2) 3).1 (by decide)).2.1 (by decide),
   ((navigateToIndex_clamps 7 3).1 (by decide)).2.2 (by decide),
   (navigateToIndex_clamps 7 0).2 (by decide)⟩

/-- C8: `setCategory` derives the filtered list — exactly the products
whose category equals the active filter, or the full product list for
`'all'` — and always resets the browsing index to 0. -/
theorem setCategory_spec (st : UseProductsState) (c : ProductCategory) :
    ((setCategory st .all).filteredProducts = st.products) ∧
    (∀ p : Product, p ∈ (setCategory st (.cat c)).filteredProducts ↔
        p ∈ st.products ∧ p.category = c) ∧
    (∀ filt : CategoryFilter, (setCategory st filt).currentProductIndex = 0) ∧
    (∀ filt : CategoryFilter, (setCategory st filt).activeCategory = filt) := by
  refine ⟨rfl, ?_, ?_, ?_⟩
  · intro p
    simp [setCategory, List.mem_filter]
  · intro filt
    rfl
  · intro filt
    rfl

/-- C3: starting from the initial (empty) cache, a call to
`fetchProductsWithCache` issues a network fetch and stores its result with
the call time; a second call strictly within `CACHE_DURATION` (5 minutes)
with `forceRefresh = false` returns the identical cached data, leaves the
cache untouched and issues no network fetch; a call with
`forceRefresh = true` always issues a network fetch, from any cache
state. -/
theorem fetchProductsWithCache_window (f0 : Bool) (t0 t1 : Int)
    (ps ps2 : List Product) (_h01 : t0 ≤ t1) (hwin : t1 - t0 < CACHE_DURATION) :
    fetchProductsWithCache f0 t0 initialCacheState ps
        = (ps, { productCache := some ps, cacheTimestamp := some t0 }, true) ∧
    fetchProductsWithCache false t1
        { productCache := some ps, cacheTimestamp := some t0 } ps2
        = (ps, { productCache := some ps, cacheTimestamp := some t0 }, false) ∧
    (∀ (st : ProductCacheState) (t : Int) (ps3 : List Product),
       fetchProductsWithCache true t st ps3
         = (ps3, { productCache := some ps3, cacheTimestamp := some t }, true)) := by
  refine ⟨rfl, ?_, ?_⟩
  · show (if false = false ∧ t1 - t0 < CACHE_DURATION then _ else _) = _
    rw [if_pos ⟨rfl, hwin⟩]
  · intro st t ps3
    rcases st with ⟨pc, ts⟩
    cases pc <;> cases ts <;> simp [fetchProductsWithCache]

/-- Witness for C3: first fetch at time 0, second call at time 1. -/
theorem fetchProductsWithCache_window_witness :
    fetchProductsWithCache false 0 initialCacheState [sampleProduct]
        = ([sampleProduct],
           { productCache := some [sampleProduct], cacheTimestamp := some 0 }, true) ∧
    fetchProductsWithCache false 1
        { productCache := some [sampleProduct], cacheTimestamp := some 0 }
        [sampleProduct2]
        = ([sampleProduct],
           { productCache := some [sampleProduct], cacheTimestamp := some 0 }, false) :=
  ⟨(fetchProductsWithCache_window false 0 1 [sampleProduct] [sampleProduct2]
      (by decide) (by decide)).1,
   (fetchProductsWithCache_window false 0 1 [sampleProduct] [sampleProduct2]
      (by decide) (by decide)).2.1⟩

/-- Folding the subtotal accumulator from `s` just shifts the result by `s`. -/
theorem foldl_subtotal_shift (l : List CartItem) (s : Rat) :
    l.foldl (fun sum item => sum + item.product.price * (item.quantity : Rat)) s
      = s + calculateSubtotal l := by
  induction l generalizing s with
  | nil => simp [calculateSubtotal]
  | cons x xs ih =>
    simp only [List.foldl_cons, calculateSubtotal] at *
    rw [ih, ih (0 + x.product.price * (x.quantity : Rat))]
    ring

/-- The subtotal of a concatenation is the sum of the subtotals. -/
theorem calculateSubtotal_append (l1 l2 : List CartItem) :
    calculateSubtotal (l1 ++ l2) = calculateSubtotal l1 + calculateSubtotal l2 := by
  unfold calculateSubtotal
  rw [List.foldl_append, foldl_subtotal_shift]
  rfl

/-- Subtotal of a single line. -/
theorem calculateSubtotal_singleton (x : CartItem) :
    calculateSubtotal [x] = x.product.price * (x.quantity : Rat) := by
  simp [calculateSubtotal]

/-- `findIdx?` finds nothing when no element satisfies the predicate. -/
theorem findIdx?_eq_none_of_all {α : Type} (p : α → Bool) (l : List α) (i : Nat)
    (h : ∀ x ∈ l, p x = false) : l.findIdx? p i = none := by
  induction l generalizing i with
  | nil => simp [List.findIdx?_nil]
  | cons x xs ih =>
    rw [List.findIdx?_cons, h x (List.mem_cons_self x xs)]
    simp only [Bool.false_eq_true, if_false]
    exact ih (i + 1) (fun y hy => h y (List.mem_cons_of_mem x hy))

/-- Appending a first matching element puts the found index at the end. -/
theorem findIdx?_append_singleton {α : Type} (p : α → Bool) (l : List α) (x : α) (i : Nat)
    (hl : ∀ y ∈ l, p y = false) (hx : p x = true) :
    (l ++ [x]).findIdx? p i = some (i + l.length) := by
  induction l generalizing i with
  | nil => simp [List.findIdx?_cons, hx]
  | cons y ys ih =>
    rw [List.cons_append, List.findIdx?_cons, hl y (List.mem_cons_self y ys)]
    simp only [Bool.false_eq_true, if_false]
    rw [ih (i + 1) (fun z hz => hl z (List.mem_cons_of_mem y hz))]
    congr 1
    simp only [List.length_cons]
    omega

/-- A member satisfying the predicate makes `findIdx?` succeed. -/
theorem findIdx?_isSome_of_mem {α : Type} (p : α → Bool) (l : List α) (i : Nat) (x : α)
    (hx : x ∈ l) (hpx : p x = true) : ∃ j, l.findIdx? p i = some j := by
  induction l generalizing i with
  | nil => cases hx
  | cons y ys ih =>
    rw [List.findIdx?_cons]
    by_cases hy : p y = true
    · exact ⟨i, by rw [if_pos hy]⟩
    · rw [if_neg hy]
      cases hx with
      | head => exact absurd hpx hy
      | tail _ hx => exact ih (i + 1) hx

/-- Updating at an index past the end of an enumerated list changes nothing. -/
theorem enumFrom_map_update_out {α : Type} (f : α → α) (l : List α) (k n : Nat)
    (h : k + l.length ≤ n) :
    (List.enumFrom k l).map (fun p => if p.1 == n then f p.2 else p.2) = l := by
  induction l generalizing k with
  | nil => rfl
  | cons x xs ih =>
    rw [List.enumFrom_cons, List.map_cons]
    have hk : ¬((k == n) = true) := by
      simp only [List.length_cons] at h
      simp only [beq_iff_eq]
      omega
    rw [if_neg hk]
    rw [ih (k + 1) (by simp only [List.length_cons] at h; omega)]

/-- Updating an enumerated `l ++ [x]` exactly at index `k + l.length`
rewrites only the final element. -/
theorem enumFrom_append_update {α : Type} (f : α → α) (l : List α) (x : α) (k : Nat) :
    (List.enumFrom k (l ++ [x])).map
        (fun p => if p.1 == k + l.length then f p.2 else p.2)
      = l ++ [f x] := by
  induction l generalizing k with
  | nil =>
    simp only [List.nil_append, List.enumFrom_cons, List.enumFrom_nil, List.map_cons,
      List.map_nil, List.length_nil, Nat.add_zero, beq_self_eq_true, if_pos]
  | cons y ys ih =>
    rw [List.cons_append, List.enumFrom_cons, List.map_cons]
    have hk : ¬((k == k + (y :: ys).length) = true) := by
      simp only [List.length_cons, beq_iff_eq]
      omega
    rw [if_neg hk]
    have harg : k + (y :: ys).length = (k + 1) + ys.length := by
      simp only [List.length_cons]
      omega
    rw [List.cons_append]
    rw [show (fun (p : Nat × α) => if p.1 == k + (y :: ys).length then f p.2 else p.2)
          = (fun (p : Nat × α) => if p.1 == (k + 1) + ys.length then f p.2 else p.2) by
        rw [harg]]
    rw [ih (k + 1)]

/-- `filterMap` with a pointwise-identity function is the identity. -/
theorem filterMap_some_eq_self {α : Type} (f : α → Option α) (l : List α)
    (h : ∀ x ∈ l, f x = some x) : l.filterMap f = l := by
  induction l with
  | nil => rfl
  | cons x xs ih =>
    rw [List.filterMap_cons, h x (List.mem_cons_self x xs)]
    rw [ih (fun y hy => h y (List.mem_cons_of_mem x hy))]

/-- C10: for a cart state of the data model (subtotal derived from the
items) and a valid quantity, `updateCartItemQuantity` with a product id not
present in the cart returns the input cart unchanged: no line is inserted
and no error is signalled. -/
theorem updateCartItemQuantity_absent_noop (cart : CartState) (productId quantity : Int)
    (hq : 0 < quantity)
    (habs : ∀ it ∈ cart.items, it.product.id ≠ productId)
    (hinv : cart.subtotal = calculateSubtotal cart.items) :
    updateCartItemQuantity cart productId quantity = .ok cart := by
  unfold updateCartItemQuantity
  rw [if_neg (by omega)]
  have hmap : cart.items.map (fun item =>
      if item.product.id == productId then { item with quantity := quantity } else item)
      = cart.items := by
    have := List.map_congr_left (l := cart.items)
      (g := id)
      (f := fun item =>
        if item.product.id == productId then { item with quantity := quantity } else item)
      (fun it hit => by
        dsimp only
        rw [if_neg (by simp only [beq_iff_eq]; exact habs it hit)]
        rfl)
    rw [this, List.map_id]
  show Except.ok
      { items := cart.items.map (fun item =>
          if item.product.id == productId then { item with quantity := quantity } else item),
        subtotal := calculateSubtotal (cart.items.map (fun item =>
          if item.product.id == productId then { item with quantity := quantity } else item)) }
    = Except.ok cart
  rw [hmap, ← hinv]

/-- Witness for C10: updating id 2 (absent) in the one-line cart for id 1. -/
theorem updateCartItemQuantity_absent_noop_witness :
    updateCartItemQuantity cartWithSample 2 5 = .ok cartWithSample :=
  updateCartItemQuantity_absent_noop cartWithSample 2 5 (by decide)
    (by intro it hit; simp [cartWithSample, sampleProduct] at hit; simp [hit, sampleProduct])
    (by simp [cartWithSample, calculateSubtotal, sampleProduct])

/-- Branch lemma: `addToCart` when the product id is not found appends. -/
theorem addToCart_not_found (cart : CartState) (p : Product) (q : Int) (hq : ¬ q ≤ 0)
    (hfind : cart.items.findIdx? (fun item => item.product.id == p.id) = none) :
    addToCart cart p q
      = .ok { items := cart.items ++ [{ product := p, quantity := q }],
              subtotal := calculateSubtotal
                (cart.items ++ [{ product := p, quantity := q }]) } := by
  unfold addToCart
  rw [if_neg hq, hfind]

/-- Branch lemma: `addToCart` when the product id is found at `idx`
rewrites that line through the indexed map. -/
theorem addToCart_found (cart : CartState) (p : Product) (q : Int) (hq : ¬ q ≤ 0)
    (idx : Nat)
    (hfind : cart.items.findIdx? (fun item => item.product.id == p.id) = some idx) :
    addToCart cart p q
      = .ok { items := cart.items.enum.map (fun pr =>
                if pr.1 == idx then { pr.2 with quantity := pr.2.quantity + q }
                else pr.2),
              subtotal := calculateSubtotal (cart.items.enum.map (fun pr =>
                if pr.1 == idx then { pr.2 with quantity := pr.2.quantity + q }
                else pr.2)) } := by
  unfold addToCart
  rw [if_neg hq, hfind]

/-- C1 (amended): for quantities `a, b > 0` and a cart in which the
product's id does not yet occur, adding the product with quantity `a` and
then `b` yields exactly one cart line for that id, carrying quantity
`a + b` and contributing `price * (a + b)` to the subtotal; and when the
product id is already present, `addToCart` never duplicates the entry (the
number of cart lines is unchanged). The claim's universal quantification
over carts that already contain the product is refuted by
`addToCart_twice_cex`. -/
theorem addToCart_merges_by_id (cart : CartState) (p : Product) (a b : Int)
    (ha : 0 < a) (hb : 0 < b) :
    ((∀ it ∈ cart.items, it.product.id ≠ p.id) →
      ∃ c1 c2,
        addToCart cart p a = .ok c1 ∧
        addToCart c1 p b = .ok c2 ∧
        c2.items = cart.items ++ [{ product := p, quantity := a + b }] ∧
        c2.items.countP (fun it => it.product.id == p.id) = 1 ∧
        c2.subtotal = calculateSubtotal cart.items + p.price * ((a + b : Int) : Rat)) ∧
    (∀ x ∈ cart.items, x.product.id = p.id →
      ∃ c, addToCart cart p a = .ok c ∧ c.items.length = cart.items.length) := by
  constructor
  · intro habs
    have habs' : ∀ it ∈ cart.items, (it.product.id == p.id) = false :=
      fun it h => beq_eq_false_iff_ne.mpr (habs it h)
    have hpred : (((⟨p, a⟩ : CartItem)).product.id == p.id) = true := beq_self_eq_true p.id
    have h1 : addToCart cart p a
        = .ok { items := cart.items ++ [{ product := p, quantity := a }],
                subtotal := calculateSubtotal
                  (cart.items ++ [{ product := p, quantity := a }]) } :=
      addToCart_not_found cart p a (by omega)
        (findIdx?_eq_none_of_all _ _ _ habs')
    have hfind2 : (cart.items ++ [({ product := p, quantity := a } : CartItem)]).findIdx?
        (fun item => item.product.id == p.id) = some (0 + cart.items.length) :=
      findIdx?_append_singleton _ _ _ 0 habs' hpred
    have hM : (cart.items ++ [({ product := p, quantity := a } : CartItem)]).enum.map
          (fun pr => if pr.1 == 0 + cart.items.length then
            { pr.2 with quantity := pr.2.quantity + b } else pr.2)
        = cart.items ++ [{ product := p, quantity := a + b }] := by
      rw [List.enum_eq_enumFrom]
      exact enumFrom_append_update (fun it => { it with quantity := it.quantity + b })
        cart.items { product := p, quantity := a } 0
    have h2 : addToCart
        { items := cart.items ++ [{ product := p, quantity := a }],
          subtotal := calculateSubtotal
            (cart.items ++ [{ product := p, quantity := a }]) } p b
        = .ok { items := cart.items ++ [{ product := p, quantity := a + b }],
                subtotal := calculateSubtotal
                  (cart.items ++ [{ product := p, quantity := a + b }]) } := by
      have base := addToCart_found
        { items := cart.items ++ [{ product := p, quantity := a }],
          subtotal := calculateSubtotal
            (cart.items ++ [{ product := p, quantity := a }]) } p b (by omega)
        (0 + cart.items.length) hfind2
      rw [base]
      show Except.ok
          ({ items := (cart.items ++ [({ product := p, quantity := a } : CartItem)]).enum.map
               (fun pr => if pr.1 == 0 + cart.items.length then
                 { pr.2 with quantity := pr.2.quantity + b } else pr.2),
             subtotal := calculateSubtotal
               ((cart.items ++ [({ product := p, quantity := a } : CartItem)]).enum.map
                 (fun pr => if pr.1 == 0 + cart.items.length then
                   { pr.2 with quantity := pr.2.quantity + b } else pr.2)) } : CartState)
        = Except.ok
          ({ items := cart.items ++ [{ product := p, quantity := a + b }],
             subtotal := calculateSubtotal
               (cart.items ++ [{ product := p, quantity := a + b }]) } : CartState)
      rw [hM]
    refine ⟨_, _, h1, h2, rfl, ?_, ?_⟩
    · show (cart.items ++ [({ product := p, quantity := a + b } : CartItem)]).countP
          (fun it => it.product.id == p.id) = 1
      rw [List.countP_append]
      have hz : cart.items.countP (fun it => it.product.id == p.id) = 0 := by
        rw [List.countP_eq_zero]
        intro it hit
        rw [habs' it hit]
        simp
      rw [hz]
      simp [List.countP_cons, hpred]
    · show calculateSubtotal (cart.items ++ [({ product := p, quantity := a + b } : CartItem)])
          = calculateSubtotal cart.items + p.price * ((a + b : Int) : Rat)
      rw [calculateSubtotal_append, calculateSubtotal_singleton]
  · intro x hx hxid
    have hpx : ((fun item => item.product.id == p.id) x) = true := beq_iff_eq.mpr hxid
    obtain ⟨j, hj⟩ := findIdx?_isSome_of_mem (fun item => item.product.id == p.id)
      cart.items 0 x hx hpx
    refine ⟨{ items := cart.items.enum.map (fun pr =>
                if pr.1 == j then { pr.2 with quantity := pr.2.quantity + a }
                else pr.2),
              subtotal := calculateSubtotal (cart.items.enum.map (fun pr =>
                if pr.1 == j then { pr.2 with quantity := pr.2.quantity + a }
                else pr.2)) },
      ?_, ?_⟩
    · exact addToCart_found cart p a (by omega) j hj
    · show (cart.items.enum.map (fun pr =>
          if pr.1 == j then { pr.2 with quantity := pr.2.quantity + a } else pr.2)).length
        = cart.items.length
      rw [List.length_map, List.enum_length]

/-- Counterexample to C1 as stated: for a cart that already contains the
product (quantity 1), adding it twice with `a = b = 1` leaves a single
line of quantity 3, not `a + b = 2`, so the claim's quantification over
every cart state fails. -/
theorem addToCart_twice_cex :
    addToCart cartWithSample sampleProduct 1
        = .ok { items := [{ product := sampleProduct, quantity := 2 }], subtotal := 20 } ∧
    addToCart { items := [{ product := sampleProduct, quantity := 2 }], subtotal := 20 }
        sampleProduct 1
        = .ok { items := [{ product := sampleProduct, quantity := 3 }], subtotal := 30 } ∧
    (3 : Int) ≠ 1 + 1 := by
  refine ⟨?_, ?_, by decide⟩
  · simp [addToCart, cartWithSample, sampleProduct, calculateSubtotal,
      List.findIdx?_cons, List.enum_cons]
    norm_num
  · simp [addToCart, sampleProduct, calculateSubtotal,
      List.findIdx?_cons, List.enum_cons]
    norm_num

/-- Witness for C1: a fresh product added with quantities 2 then 3, and a
merge into `cartWithSample` (already holding the product) keeping one line. -/
theorem addToCart_merges_by_id_witness :
    (∃ c1 c2,
        addToCart clearCart sampleProduct 2 = .ok c1 ∧
        addToCart c1 sampleProduct 3 = .ok c2 ∧
        c2.items = clearCart.items ++ [{ product := sampleProduct, quantity := 2 + 3 }] ∧
        c2.items.countP (fun it => it.product.id == sampleProduct.id) = 1 ∧
        c2.subtotal = calculateSubtotal clearCart.items
          + sampleProduct.price * ((2 + 3 : Int) : Rat)) ∧
    (∃ c, addToCart cartWithSample sampleProduct 2 = .ok c ∧
        c.items.length = cartWithSample.items.length) :=
  ⟨(addToCart_merges_by_id clearCart sampleProduct 2 3 (by decide) (by decide)).1
      (by intro it hit; simp [clearCart] at hit),
   (addToCart_merges_by_id cartWithSample sampleProduct 2 3 (by decide) (by decide)).2
      { product := sampleProduct, quantity := 1 } (by simp [cartWithSample]) rfl⟩

/-- Evaluation of `loadCart` on present saved data. -/
theorem loadCart_some (pc : PersistedCart) (products : List Product) :
    loadCart (some pc) products
      = { items := pc.items.filterMap (fun savedItem =>
            (products.find? (fun p => p.id == savedItem.productId)).map (fun product =>
              { product := product, quantity := savedItem.quantity })),
          subtotal := calculateSubtotal (pc.items.filterMap (fun savedItem =>
            (products.find? (fun p => p.id == savedItem.productId)).map (fun product =>
              { product := product, quantity := savedItem.quantity }))) } := rfl

/-- The id/quantity pairs surviving a `loadCart` reconstruction are exactly
the saved pairs whose id occurs in the product list, in order. -/
theorem loadCart_pairs_filter (products : List Product) (l : List CartItem) :
    (l.filterMap (fun it => (products.find? (fun p => p.id == it.product.id)).map
        (fun product => ({ product := product, quantity := it.quantity } : CartItem)))).map
      (fun it => (it.product.id, it.quantity))
    = (l.map (fun it => (it.product.id, it.quantity))).filter
        (fun pr => products.any (fun p => p.id == pr.1)) := by
  induction l with
  | nil => rfl
  | cons x xs ih =>
    rw [List.filterMap_cons, List.map_cons, List.filter_cons]
    cases hf : products.find? (fun p => p.id == x.product.id) with
    | none =>
      have hany : (products.any (fun p => p.id == x.product.id)) = false := by
        rw [List.any_eq_false]
        intro p hp
        exact List.find?_eq_none.mp hf p hp
      simp only [Option.map_none']
      dsimp only
      rw [hany]
      simp only [Bool.false_eq_true, if_false]
      exact ih
    | some q =>
      have hq2 := List.find?_some hf
      have hqid : q.id = x.product.id := by rwa [beq_iff_eq] at hq2
      have hany : (products.any (fun p => p.id == x.product.id)) = true :=
        List.any_eq_true.mpr ⟨q, List.mem_of_find?_eq_some hf, hq2⟩
      simp only [Option.map_some']
      rw [List.map_cons]
      dsimp only
      rw [hany]
      simp only [if_true]
      rw [hqid, ih]

/-- C4 (amended): saving then loading a cart against a product list
reproduces the saved id/quantity pairs filtered to the ids present in the
list (dropping exactly the missing ids, keeping order), with the subtotal
recomputed from the kept lines; the round trip reproduces the cart exactly
when each item's product is what `find` returns for its id in the list and
the cart's subtotal satisfies the derived-subtotal invariant. The claim's
stronger ids-only precondition is refuted by `saveCart_loadCart_cex`:
matching ids do not pin the price, so the reloaded subtotal can differ. -/
theorem saveCart_loadCart_roundtrip (cart : CartState) (products : List Product)
    (nowIso : String) :
    ((∀ it ∈ cart.items,
        products.find? (fun p => p.id == it.product.id) = some it.product) →
      cart.subtotal = calculateSubtotal cart.items →
      loadCart (some (saveCart cart nowIso)) products = cart) ∧
    ((loadCart (some (saveCart cart nowIso)) products).items.map
        (fun it => (it.product.id, it.quantity))
      = (cart.items.map (fun it => (it.product.id, it.quantity))).filter
          (fun pr => products.any (fun p => p.id == pr.1))) ∧
    ((loadCart (some (saveCart cart nowIso)) products).subtotal
      = calculateSubtotal (loadCart (some (saveCart cart nowIso)) products).items) := by
  refine ⟨?_, ?_, rfl⟩
  · intro hfound hinv
    rw [loadCart_some]
    simp only [saveCart]
    rw [List.filterMap_map]
    have hitems : cart.items.filterMap
        ((fun savedItem => (products.find? (fun p => p.id == savedItem.productId)).map
            (fun product => ({ product := product, quantity := savedItem.quantity } : CartItem)))
          ∘ (fun item =>
            ({ productId := item.product.id, quantity := item.quantity } : PersistedCartItem)))
        = cart.items := by
      apply filterMap_some_eq_self
      intro it hit
      show (products.find? (fun p => p.id == it.product.id)).map
          (fun product => ({ product := product, quantity := it.quantity } : CartItem))
        = some it
      rw [hfound it hit]
      rfl
    rw [hitems, ← hinv]
  · rw [loadCart_some]
    simp only [saveCart]
    rw [List.filterMap_map]
    exact loadCart_pairs_filter products cart.items

/-- Witness for C4: the round trip on `cartWithSample` against the product
list it came from. -/
theorem saveCart_loadCart_roundtrip_witness :
    loadCart (some (saveCart cartWithSample "2024-01-01T00:00:00Z")) [sampleProduct]
      = cartWithSample :=
  (saveCart_loadCart_roundtrip cartWithSample [sampleProduct] "2024-01-01T00:00:00Z").1
    (by
      intro it hit
      simp [cartWithSample] at hit
      subst hit
      rfl)
    (by simp [cartWithSample, calculateSubtotal, sampleProduct])

/-- Counterexample to C4 as stated: every product id of `cartWithSample`
occurs in `[sampleProductRepriced]` (and the cart even satisfies the
subtotal invariant), yet reloading recomputes the subtotal with the list's
price 20 instead of the saved line's price 10, so the loaded subtotal 20
differs from the saved cart's subtotal 10. -/
theorem saveCart_loadCart_cex :
    (∀ it ∈ cartWithSample.items,
      [sampleProductRepriced].any (fun p => p.id == it.product.id) = true) ∧
    cartWithSample.subtotal = calculateSubtotal cartWithSample.items ∧
    (loadCart (some (saveCart cartWithSample "t")) [sampleProductRepriced]).subtotal = 20 ∧
    cartWithSample.subtotal = 10 ∧ ((20 : Rat) ≠ 10) := by
  refine ⟨?_, ?_, ?_, rfl, by norm_num⟩
  · intro it hit
    simp [cartWithSample] at hit
    subst hit
    rfl
  · simp [cartWithSample, calculateSubtotal, sampleProduct]
  · simp [loadCart, saveCart, cartWithSample, sampleProduct, sampleProductRepriced,
      calculateSubtotal, List.find?]

/-- The product component of the `fetchProducts` accumulation loop collects
exactly the records `parseProduct` accepts, in order. -/
theorem fetchProducts_foldl (l : List (Nat × RawProduct)) (acc : List Product × List String) :
    (l.foldl (fun (acc : List Product × List String) p =>
        match parseProduct p.2 with
        | .ok product => (acc.1 ++ [product], acc.2)
        | .error e => (acc.1, acc.2 ++ ["Product at index " ++ toString p.1 ++ ": " ++ e]))
      acc).1
    = acc.1 ++ l.filterMap (fun pr => (parseProduct pr.2).toOption) := by
  induction l generalizing acc with
  | nil => simp
  | cons x xs ih =>
    rw [List.foldl_cons, ih, List.filterMap_cons]
    cases hp : parseProduct x.2 with
    | ok product => simp [Except.toOption, List.append_assoc]
    | error e => simp [Except.toOption]

/-- Filtering an enumeration through the second components equals filtering
the underlying list. -/
theorem filterMap_enum_snd {β : Type} (l : List RawProduct) (f : RawProduct → Option β) :
    l.enum.filterMap (fun pr => f pr.2) = l.filterMap f := by
  conv_rhs => rw [← List.enum_map_snd l]
  rw [List.filterMap_map]
  rfl

/-- Evaluation lemma exposing the body of `fetchProducts`. -/
theorem fetchProducts_eval (data : List RawProduct) :
    fetchProducts data
      = (if (data.enum.foldl (fun (acc : List Product × List String) p =>
              match parseProduct p.2 with
              | .ok product => (acc.1 ++ [product], acc.2)
              | .error e => (acc.1, acc.2 ++ ["Product at index " ++ toString p.1 ++ ": " ++ e]))
            ([], [])).1.length > 0
         then .ok (data.enum.foldl (fun (acc : List Product × List String) p =>
              match parseProduct p.2 with
              | .ok product => (acc.1 ++ [product], acc.2)
              | .error e => (acc.1, acc.2 ++ ["Product at index " ++ toString p.1 ++ ": " ++ e]))
            ([], [])).1
         else .error ("Failed to parse any products. Errors: "
           ++ String.intercalate "; " (data.enum.foldl
              (fun (acc : List Product × List String) p =>
                match parseProduct p.2 with
                | .ok product => (acc.1 ++ [product], acc.2)
                | .error e => (acc.1, acc.2 ++ ["Product at index " ++ toString p.1 ++ ": " ++ e]))
              ([], [])).2)) := rfl

/-- `fetchProductsByCategory` parses every record when all are valid. -/
theorem fetchProductsByCategory_all_ok (data : List RawProduct)
    (h : ∀ r ∈ data, (parseProduct r).isOk = true) :
    fetchProductsByCategory data = .ok (validProducts data) := by
  induction data with
  | nil => rfl
  | cons r rest ih =>
    have hr := h r (List.mem_cons_self r rest)
    cases hp : parseProduct r with
    | error e =>
      rw [hp] at hr
      exact absurd hr (by simp [Except.isOk, Except.toBool])
    | ok product =>
      unfold fetchProductsByCategory
      rw [hp, ih (fun x hx => h x (List.mem_cons_of_mem r hx))]
      simp [validProducts, List.filterMap_cons, hp, Except.toOption]

/-- `fetchProductsByCategory` throws as soon as any record is invalid. -/
theorem fetchProductsByCategory_err (data : List RawProduct)
    (h : ∃ r ∈ data, (parseProduct r).isOk = false) :
    ∃ e, fetchProductsByCategory data = .error e := by
  induction data with
  | nil =>
    obtain ⟨r, hr, _⟩ := h
    cases hr
  | cons r rest ih =>
    cases hp : parseProduct r with
    | error e => exact ⟨e, by unfold fetchProductsByCategory; rw [hp]⟩
    | ok product =>
      have hrest : ∃ x ∈ rest, (parseProduct x).isOk = false := by
        obtain ⟨x, hx, hbad⟩ := h
        cases hx with
        | head =>
          rw [hp] at hbad
          simp [Except.isOk, Except.toBool] at hbad
        | tail _ hx => exact ⟨x, hx, hbad⟩
      obtain ⟨e, he⟩ := ih hrest
      exact ⟨e, by unfold fetchProductsByCategory; rw [hp, he]⟩

/-- C5 (amended): the full-list fetch is per-record tolerant — it returns
exactly the records that validate (shape and category enum), in order, and
throws only when zero records validate — but the by-category fetch is not:
it returns all records only when every record validates and throws on the
first invalid record even when other records are valid, as
`fetchProductsByCategory_cex` shows. -/
theorem fetch_per_record_tolerance (data : List RawProduct) :
    (validProducts data ≠ [] → fetchProducts data = .ok (validProducts data)) ∧
    (validProducts data = [] → ∃ e, fetchProducts data = .error e) ∧
    ((∀ r ∈ data, (parseProduct r).isOk = true) →
      fetchProductsByCategory data = .ok (validProducts data)) ∧
    ((∃ r ∈ data, (parseProduct r).isOk = false) →
      ∃ e, fetchProductsByCategory data = .error e) := by
  have hfold : (data.enum.foldl (fun (acc : List Product × List String) p =>
        match parseProduct p.2 with
        | .ok product => (acc.1 ++ [product], acc.2)
        | .error e => (acc.1, acc.2 ++ ["Product at index " ++ toString p.1 ++ ": " ++ e]))
      ([], [])).1 = validProducts data := by
    rw [fetchProducts_foldl, List.nil_append]
    exact filterMap_enum_snd data (fun r => (parseProduct r).toOption)
  refine ⟨?_, ?_, fetchProductsByCategory_all_ok data, fetchProductsByCategory_err data⟩
  · intro h
    rw [fetchProducts_eval, hfold, if_pos (by simpa using List.length_pos.mpr h)]
  · intro h
    rw [fetchProducts_eval, hfold, h, if_neg (by decide)]
    exact ⟨_, rfl⟩

/-- Witness for C5 at concrete record lists with and without invalid
records. -/
theorem fetch_per_record_tolerance_witness :
    validProducts [rawGood, rawBad] ≠ [] ∧
    fetchProducts [rawGood, rawBad] = .ok (validProducts [rawGood, rawBad]) ∧
    (∃ r ∈ [rawBad], (parseProduct r).isOk = false) ∧
    (∃ e, fetchProductsByCategory [rawBad] = .error e) := by
  have hne : validProducts [rawGood, rawBad] ≠ [] := by
    rw [show validProducts [rawGood, rawBad] = [sampleProduct] from rfl]
    simp
  have hex : ∃ r ∈ [rawBad], (parseProduct r).isOk = false :=
    ⟨rawBad, List.mem_cons_self rawBad [], rfl⟩
  exact ⟨hne, (fetch_per_record_tolerance [rawGood, rawBad]).1 hne, hex,
    (fetch_per_record_tolerance [rawBad]).2.2.2 hex⟩

/-- Counterexample to C5 as stated: on `[rawGood, rawBad]` (one valid and
one invalid record) the by-category fetch throws instead of returning the
valid record, while the full-list fetch keeps it. -/
theorem fetchProductsByCategory_cex :
    fetchProductsByCategory [rawGood, rawBad]
      = .error "Invalid product data: missing or invalid required fields" ∧
    fetchProducts [rawGood, rawBad] = .ok [sampleProduct] := by
  exact ⟨rfl, rfl⟩
